import Mathlib

/-!
Verification of the typography helpers and the SVG rendering backend of the
pts library, as a shallow embedding in Lean 4.

Numbers are modelled as rationals (`ℚ`) except where trigonometry forces
reals; JS strings manipulated character-wise are modelled as `List Char`,
while identifier strings that are only concatenated are Lean `String`s.
-/

/-- JS strings measured and sliced character-wise. -/
abbrev JStr := List Char

namespace Pts

/-- Modelled from the spec: the upstream point/vector collaborator supports a
dot product; `new Pt(distribution).dot(m)` is the dot product of the two
numeric lists (missing source: Pt.js). -/
def Pt.dot (a b : List ℚ) : ℚ := (List.zipWith (fun x y => x * y) a b).sum

namespace Typography

/-- `Typography.textWidthEstimator(fn, samples, distribution)`:
`let m = samples.map(fn); let avg = new Pt(distribution).dot(m);
return (str) => str.length * avg;` (Typography.js lines 15-19).
Defaults at call sites: `samples = ["M","n","."]`,
`distribution = [0.06, 0.8, 0.14]`. -/
def textWidthEstimator (fn : JStr → ℚ) (samples : List JStr)
    (distribution : List ℚ) : JStr → ℚ :=
  let m := samples.map fn
  let avg := Pt.dot distribution m
  fun str => (str.length : ℚ) * avg

/-- `Typography.truncate(fn, str, width, tail)` (Typography.js lines 27-36):
`let trim = Math.floor(str.length * Math.min(1, width / fn(str)));
if (trim < str.length) { trim = Math.max(0, trim - tail.length);
return [str.substr(0, trim) + tail, trim]; } else { return [str, str.length]; }`
The default for `tail` is the empty string. -/
def truncate (fn : JStr → ℚ) (str : JStr) (width : ℚ) (tail : JStr) :
    JStr × ℤ :=
  let trim : ℤ := ⌊(str.length : ℚ) * min 1 (width / fn str)⌋
  if trim < (str.length : ℤ) then
    let trim2 : ℤ := max 0 (trim - (tail.length : ℤ))
    (str.take trim2.toNat ++ tail, trim2)
  else
    (str, (str.length : ℤ))

end Typography

/-- Style values stored in the DrawContext's style object (JS booleans,
strings and numbers). -/
inductive SVal where
  | b (v : Bool)
  | s (v : String)
  | n (v : ℚ)
deriving DecidableEq

/-- JS truthiness of a style value (`false`, `""` and `0` are falsy). -/
def SVal.truthy : SVal → Bool
  | .b v => v
  | .s v => v != ""
  | .n v => v != 0

/-- Rendering of a style value inside a template string. -/
def SVal.render : SVal → String
  | .b v => if v then "true" else "false"
  | .s v => v
  | .n v => toString v

/-- The style object, modelled as an association list preserving the JS
object's insertion order (keys are unique in every reachable state). -/
abbrev Style := List (String × SVal)

/-- JS property read `st[k]`: first binding of `k`, `none` when absent. -/
def styleLookup : Style → String → Option SVal
  | [], _ => none
  | (k, v) :: rest, q => if q = k then some v else styleLookup rest q

/-- JS property write `st[k] = nv` on an object already holding `k`:
replaces the (unique) binding of `k`, leaves other keys untouched. -/
def styleSet : Style → String → SVal → Style
  | [], _, _ => []
  | (k, v) :: rest, q, nv =>
      if q = k then (k, nv) :: rest else (k, v) :: styleSet rest q nv

/-- The style object installed by the `SVGForm` constructor (part_000 lines
112-120) and by `reset` (lines 231-237). Note the source's literal
`"sqaure"` for `stroke-linecap`. -/
def defaultStyle : Style :=
  [("filled", .b true), ("stroked", .b true), ("fill", .s "#f03"),
   ("stroke", .s "#fff"), ("stroke-width", .n 1),
   ("stroke-linejoin", .s "bevel"), ("stroke-linecap", .s "sqaure")]

/-- The fixed key set of the style object. -/
def fixedStyleKeys : List String :=
  ["filled", "stroked", "fill", "stroke", "stroke-width",
   "stroke-linejoin", "stroke-linecap"]

/-- The mutable drawing context `_ctx` of an SVGForm (part_000 lines
106-124). The `group` element reference is opaque here (an optional id). -/
structure DrawContext where
  group : Option String
  groupID : String
  groupCount : ℕ
  currentID : String
  currentClass : String
  style : Style
  font : String
  fontSize : ℚ
  fontFamily : String

/-- Modelled from the spec: the `Font` record (missing source: Form.js) has
size, family, weight, style and lineHeight, and derives a single formatted
string consumed by `DrawContext.font` (the context's initial value
`"11px sans-serif"` fixes the format as `"{size}px {family}"`). -/
structure Font where
  size : ℚ
  face : String
  weight : String
  style : String
  lineHeight : ℚ

/-- Modelled from the spec: the two-argument `Font` constructor used by
`reset` sets size and family; the remaining fields keep defaults that no
claim observes (modelled as empty strings and 1). -/
def Font.make (size : ℚ) (face : String) : Font := ⟨size, face, "", "", 1⟩

/-- The derived font string. -/
def Font.value (f : Font) : String := toString f.size ++ "px " ++ f.face

/-- The state of one SVGForm instance: its context, its `_font`, and the
global `SVGForm.domID` fallback counter threaded explicitly. -/
structure FormState where
  ctx : DrawContext
  font : Font
  domID : ℕ

/-- The context installed by the `SVGForm` constructor (before the `start`
callback rebinds `group`/`groupID`). -/
def initContext : DrawContext :=
  { group := none, groupID := "pts", groupCount := 0, currentID := "pts0",
    currentClass := "", style := defaultStyle, font := "11px sans-serif",
    fontSize := 11, fontFamily := "sans-serif" }

namespace SVGForm

/-- `styleTo(k, v)` (part_000 lines 142-146): throws when the style object
has no binding for `k`, otherwise updates it. -/
def styleTo (st : Style) (k : String) (v : SVal) : Except String Style :=
  match styleLookup st k with
  | none => .error (k ++ " style property doesn't exist")
  | some _ => .ok (styleSet st k v)

/-- `fill(c)` (part_000 lines 152-161): a boolean sets `filled`; any other
value sets `filled = true` and `fill = c`. -/
def fill (f : FormState) (c : SVal) : Except String FormState :=
  match c with
  | .b v => do
      let s ← styleTo f.ctx.style "filled" (.b v)
      pure { f with ctx := { f.ctx with style := s } }
  | _ => do
      let s1 ← styleTo f.ctx.style "filled" (.b true)
      let s2 ← styleTo s1 "fill" c
      pure { f with ctx := { f.ctx with style := s2 } }

/-- `stroke(c, width, linejoin, linecap)` (part_000 lines 170-185): a boolean
sets `stroked`; otherwise sets `stroked = true`, `stroke = c`, and each
optional sub-property only when provided and truthy. -/
def stroke (f : FormState) (c : SVal) (width : Option ℚ)
    (linejoin linecap : Option String) : Except String FormState :=
  match c with
  | .b v => do
      let s ← styleTo f.ctx.style "stroked" (.b v)
      pure { f with ctx := { f.ctx with style := s } }
  | _ => do
      let s1 ← styleTo f.ctx.style "stroked" (.b true)
      let s2 ← styleTo s1 "stroke" c
      let s3 ← match width with
        | some w => if w ≠ 0 then styleTo s2 "stroke-width" (.n w) else pure s2
        | none => pure s2
      let s4 ← match linejoin with
        | some lj =>
            if lj ≠ "" then styleTo s3 "stroke-linejoin" (.s lj) else pure s3
        | none => pure s3
      let s5 ← match linecap with
        | some lc =>
            if lc ≠ "" then styleTo s4 "stroke-linecap" (.s lc) else pure s4
        | none => pure s4
      pure { f with ctx := { f.ctx with style := s5 } }

/-- `reset()` (part_000 lines 230-241): reinstalls the default style literal
and a fresh `Font(14, "sans-serif")`, and rederives the context font
string. -/
def reset (f : FormState) : FormState :=
  let fo : Font := Font.make 14 "sans-serif"
  { f with
    ctx := { f.ctx with style := defaultStyle, font := fo.value },
    font := fo }

/-- `nextID()` (part_000 lines 269-273): increments `groupCount` and
rederives `currentID = "{groupID}-{groupCount}"`. -/
def nextID (f : FormState) : FormState × String :=
  let c := f.ctx.groupCount + 1
  let id := f.ctx.groupID ++ "-" ++ toString c
  ({ f with ctx := { f.ctx with groupCount := c, currentID := id } }, id)

/-- `getID(ctx)` (part_000 lines 278-280): `ctx.currentID` when truthy, else
the global fallback `"p-" + SVGForm.domID++`, threaded here explicitly. -/
def getID (ctx : DrawContext) (domID : ℕ) : String × ℕ :=
  if ctx.currentID = "" then ("p-" ++ toString domID, domID + 1)
  else (ctx.currentID, domID)

/-- JS truthiness of `st[k]` (absent keys are falsy). -/
def truthyAt (st : Style) (k : String) : Bool :=
  match styleLookup st k with
  | none => false
  | some v => v.truthy

/-- `SVGForm.style(elem, styles)` serialization (part_000 lines 295-318):
`fill: none` / `stroke: none` when unfilled/unstroked, then every truthy
non-`filled`/`stroked` entry, skipping `fill*` keys when unfilled and
`stroke*` keys when unstroked; joined with `";"`. -/
def styleString (st : Style) : String :=
  let base :=
    (if truthyAt st "filled" then [] else ["fill: none"]) ++
      (if truthyAt st "stroked" then [] else ["stroke: none"])
  let rest := st.filterMap (fun p =>
    if p.1 = "filled" ∨ p.1 = "stroked" then none
    else if p.2.truthy then
      (if truthyAt st "filled" = false ∧ "fill".isPrefixOf p.1 then none
       else if truthyAt st "stroked" = false ∧ "stroke".isPrefixOf p.1 then
         none
       else some (p.1 ++ ": " ++ p.2.render))
    else none)
  String.intercalate ";" (base ++ rest)

end SVGForm

/-- The SVG child elements produced by draw calls, identified by tag and
attributes; `rectE` covers both `square` and `rect` (both emit tag
`rect`). -/
inductive Elem where
  | circleE (id : String) (cx cy r : ℚ) (cls style : String)
  | rectE (id : String) (x y width height : ℚ) (cls style : String)
  | lineE (id : String) (x1 y1 x2 y2 : ℚ) (cls style : String)
  | polyE (id tag : String) (points : String) (cls style : String)
  | textE (id : String) (x y dx dy : ℚ) (content : String) (cls style : String)
deriving DecidableEq

namespace SVGForm

/-- Static `circle(ctx, pt, radius)` (part_000 lines 353-363). -/
def circleS (ctx : DrawContext) (pt : ℚ × ℚ) (radius : ℚ) (domID : ℕ) :
    Elem × ℕ :=
  let g := getID ctx domID
  (.circleE g.1 pt.1 pt.2 radius
      ("pts-svgform pts-circle " ++ ctx.currentClass) (styleString ctx.style),
    g.2)

/-- Static `square(ctx, pt, halfsize)` (part_000 lines 419-430). -/
def squareS (ctx : DrawContext) (pt : ℚ × ℚ) (halfsize : ℚ) (domID : ℕ) :
    Elem × ℕ :=
  let g := getID ctx domID
  (.rectE g.1 (pt.1 - halfsize) (pt.2 - halfsize) (halfsize * 2)
      (halfsize * 2) ("pts-svgform pts-square " ++ ctx.currentClass)
      (styleString ctx.style),
    g.2)

/-- Static `point(ctx, pt, radius, shape)` (part_000 lines 327-334):
delegates to `circle` or `square`. -/
def pointS (ctx : DrawContext) (pt : ℚ × ℚ) (radius : ℚ) (shape : String)
    (domID : ℕ) : Elem × ℕ :=
  if shape = "circle" then circleS ctx pt radius domID
  else squareS ctx pt radius domID

/-- Modelled from the spec: `VisualForm._checkSize` (missing source:
Form.js) — line/poly operations silently no-op when the input has fewer
than 2 points. -/
def checkSize (pts : List (ℚ × ℚ)) : Bool := 2 ≤ pts.length

/-- The `points` attribute string: `pts.reduce((a,p) => a + "x,y ", "")`
(part_000 line 481). -/
def polyPoints (pts : List (ℚ × ℚ)) : String :=
  pts.foldl (fun a p => a ++ toString p.1 ++ "," ++ toString p.2 ++ " ") ""

/-- Static `_poly(ctx, pts, closePath)` (part_000 lines 477-488). -/
def polyS (ctx : DrawContext) (pts : List (ℚ × ℚ)) (closePath : Bool)
    (domID : ℕ) : Option Elem × ℕ :=
  if checkSize pts then
    let g := getID ctx domID
    (some (.polyE g.1 (if closePath then "polygon" else "polyline")
        (polyPoints pts) ("pts-svgform pts-polygon " ++ ctx.currentClass)
        (styleString ctx.style)),
      g.2)
  else (none, domID)

/-- Static `line(ctx, pts)` (part_000 lines 446-461): silent no-op below 2
points, polyline above 2, a `line` element at exactly 2. -/
def lineS (ctx : DrawContext) (pts : List (ℚ × ℚ)) (domID : ℕ) :
    Option Elem × ℕ :=
  if checkSize pts then
    if 2 < pts.length then polyS ctx pts false domID
    else
      let g := getID ctx domID
      let p0 := pts.getD 0 (0, 0)
      let p1 := pts.getD 1 (0, 0)
      (some (.lineE g.1 p0.1 p0.2 p1.1 p1.2
          ("pts-svgform pts-line " ++ ctx.currentClass)
          (styleString ctx.style)),
        g.2)
  else (none, domID)

/-- Static `polygon(ctx, pts)` (part_000 lines 494-496). -/
def polygonS (ctx : DrawContext) (pts : List (ℚ × ℚ)) (domID : ℕ) :
    Option Elem × ℕ :=
  polyS ctx pts true domID

/-- Modelled from the spec: `Group.fromArray(pts).boundingBox()` with
`Rectangle.size` (missing sources: Pt.js, Op.js) — componentwise min/max
across all given points, as (top-left, bottom-right). -/
def boundingBox (pts : List (ℚ × ℚ)) : (ℚ × ℚ) × (ℚ × ℚ) :=
  let fst := pts.getD 0 (0, 0)
  ((pts.foldl (fun a p => min a p.1) fst.1,
    pts.foldl (fun a p => min a p.2) fst.2),
   (pts.foldl (fun a p => max a p.1) fst.1,
    pts.foldl (fun a p => max a p.2) fst.2))

/-- Static `rect(ctx, pts)` (part_000 lines 511-526). -/
def rectS (ctx : DrawContext) (pts : List (ℚ × ℚ)) (domID : ℕ) :
    Option Elem × ℕ :=
  if checkSize pts then
    let g := getID ctx domID
    let bound := boundingBox pts
    (some (.rectE g.1 bound.1.1 bound.1.2 (bound.2.1 - bound.1.1)
        (bound.2.2 - bound.1.2) ("pts-svgform pts-rect " ++ ctx.currentClass)
        (styleString ctx.style)),
      g.2)
  else (none, domID)

/-- Static `text(ctx, pt, txt)` (part_000 lines 543-555), with its fixed
`dx = 0, dy = 0`. -/
def textS (ctx : DrawContext) (pt : ℚ × ℚ) (txt : String) (domID : ℕ) :
    Elem × ℕ :=
  let g := getID ctx domID
  (.textE g.1 pt.1 pt.2 0 0 txt
      ("pts-svgform pts-text " ++ ctx.currentClass) (styleString ctx.style),
    g.2)

/-- Modelled from the spec: `new Pt(pt).toAngle(angle, radius, true)`
(missing source: Pt.js) — the point at `angle`/`radius` anchored at
`pt`. -/
noncomputable def toAngle (p : ℝ × ℝ) (angle radius : ℝ) : ℝ × ℝ :=
  (p.1 + radius * Real.cos angle, p.2 + radius * Real.sin angle)

/-- Modelled from the spec: `Geom.boundAngle` (missing source: Num.js) —
normalizes an angle into the principal range, leaving in-range angles
unchanged. -/
noncomputable def boundAngle (a : ℝ) : ℝ :=
  a - 2 * Real.pi * ⌊a / (2 * Real.pi)⌋

/-- The path element produced by `arc`, with the pieces of its `d`
attribute `M sx sy A r r 0 largeArc sweep ex ey` held structurally. -/
structure ArcPath where
  id : String
  startPt : ℝ × ℝ
  radius : ℝ
  largeArc : Prop
  sweep : String
  endPt : ℝ × ℝ
  cls : String
  styleStr : String

/-- Static `arc(ctx, pt, radius, startAngle, endAngle, cc)` (part_000 lines
383-398): `largeArc = (boundAngle(end) - boundAngle(start) > π)`, flipped
when `cc`; `sweep = cc ? "0" : "1"`. -/
noncomputable def arcS (ctx : DrawContext) (pt : ℝ × ℝ)
    (radius startAngle endAngle : ℝ) (cc : Bool) (domID : ℕ) :
    ArcPath × ℕ :=
  let g := getID ctx domID
  let start := toAngle pt startAngle radius
  let stop := toAngle pt endAngle radius
  let diff := boundAngle endAngle - boundAngle startAngle
  let la : Prop := if cc then ¬ (Real.pi < diff) else (Real.pi < diff)
  ({ id := g.1, startPt := start, radius := radius, largeArc := la,
     sweep := if cc then "0" else "1", endPt := stop,
     cls := "pts-svgform pts-arc " ++ ctx.currentClass,
     styleStr := styleString ctx.style },
    g.2)

/-- Instance `point(pt, radius, shape)` (part_000 lines 342-346). -/
def pointI (f : FormState) (pt : ℚ × ℚ) (radius : ℚ) (shape : String) :
    FormState × Elem :=
  let f1 := (nextID f).1
  let r := pointS f1.ctx pt radius shape f1.domID
  ({ f1 with domID := r.2 }, r.1)

/-- Instance `circle(pts)` (part_000 lines 369-373): uses `pts[0]` as
center and `pts[1][0]` as radius; the input is modelled as the center and
size points. -/
def circleI (f : FormState) (c sz : ℚ × ℚ) : FormState × Elem :=
  let f1 := (nextID f).1
  let r := circleS f1.ctx c sz.1 f1.domID
  ({ f1 with domID := r.2 }, r.1)

/-- Instance `arc(pt, radius, startAngle, endAngle, cc)` (part_000 lines
408-412). -/
noncomputable def arcI (f : FormState) (pt : ℝ × ℝ)
    (radius startAngle endAngle : ℝ) (cc : Bool) : FormState × ArcPath :=
  let f1 := (nextID f).1
  let r := arcS f1.ctx pt radius startAngle endAngle cc f1.domID
  ({ f1 with domID := r.2 }, r.1)

/-- Instance `square(pt, halfsize)` (part_000 lines 436-440). -/
def squareI (f : FormState) (pt : ℚ × ℚ) (halfsize : ℚ) :
    FormState × Elem :=
  let f1 := (nextID f).1
  let r := squareS f1.ctx pt halfsize f1.domID
  ({ f1 with domID := r.2 }, r.1)

/-- Instance `line(pts)` (part_000 lines 466-470). -/
def lineI (f : FormState) (pts : List (ℚ × ℚ)) : FormState × Option Elem :=
  let f1 := (nextID f).1
  let r := lineS f1.ctx pts f1.domID
  ({ f1 with domID := r.2 }, r.1)

/-- Instance `polygon(pts)` (part_000 lines 501-505). -/
def polygonI (f : FormState) (pts : List (ℚ × ℚ)) :
    FormState × Option Elem :=
  let f1 := (nextID f).1
  let r := polygonS f1.ctx pts f1.domID
  ({ f1 with domID := r.2 }, r.1)

/-- Instance `rect(pts)` (part_000 lines 531-535). -/
def rectI (f : FormState) (pts : List (ℚ × ℚ)) : FormState × Option Elem :=
  let f1 := (nextID f).1
  let r := rectS f1.ctx pts f1.domID
  ({ f1 with domID := r.2 }, r.1)

/-- Instance `text(pt, txt)` (part_000 lines 562-566). -/
def textI (f : FormState) (pt : ℚ × ℚ) (txt : String) : FormState × Elem :=
  let f1 := (nextID f).1
  let r := textS f1.ctx pt txt f1.domID
  ({ f1 with domID := r.2 }, r.1)

/-- `log(txt)` (part_000 lines 571-574):
`this.fill("#000").stroke("#fff", 0.5).text([10, 14], txt)`. -/
def log (f : FormState) (txt : String) : Except String (FormState × Elem) := do
  let f1 ← fill f (.s "#000")
  let f2 ← stroke f1 (.s "#fff") (some (1 / 2)) none none
  pure (textI f2 (10, 14) txt)

/-- One draw call advanced the ID: the counter grew by exactly one and
`currentID` was rederived from it. -/
def advancesID (f g : FormState) : Prop :=
  g.ctx.groupCount = f.ctx.groupCount + 1 ∧
    g.ctx.currentID = f.ctx.groupID ++ "-" ++ toString (f.ctx.groupCount + 1)

end SVGForm

end Pts

/-- C1: for every measure function `fn` with `fn(text) > 0` and every width
with `width ≥ fn(text)`, `Typography.truncate(fn, text, width, tail)` returns
the pair `(text, text.length)`, leaving the text unchanged regardless of the
tail argument. -/
theorem truncate_wide_id (fn : JStr → ℚ) (str : JStr) (width : ℚ)
    (tail : JStr) (hpos : 0 < fn str) (hw : fn str ≤ width) :
    Pts.Typography.truncate fn str width tail = (str, (str.length : ℤ)) := by
  unfold Pts.Typography.truncate
  have h1 : (1 : ℚ) ≤ width / fn str := (one_le_div hpos).mpr hw
  rw [min_eq_left h1, mul_one, Int.floor_natCast]
  simp

/-- Witness for C1 at `fn = const 1`, `str = "ab"`, `width = 2`, `tail = "."`. -/
theorem truncate_wide_id_witness :
    (0 : ℚ) < 1 ∧ (1 : ℚ) ≤ 2 ∧
      Pts.Typography.truncate (fun _ => (1 : ℚ)) (['a', 'b'] : JStr) 2 ['.']
        = (['a', 'b'], 2) :=
  ⟨by norm_num, by norm_num,
    truncate_wide_id (fun _ => (1 : ℚ)) ['a', 'b'] 2 ['.']
      (by norm_num) (by norm_num)⟩

/-- C2 counterexample: with `fn = const 10 > 0`, `text = "ab"`, `width = 1`
(so `trim = 0 < 2 = text.length`) and `tail = "....."`, the returned string
has length 5, which exceeds `text.length = 2`. -/
theorem truncate_trim_cex :
    (0 : ℚ) < (fun _ => (10 : ℚ)) (['a', 'b'] : JStr) ∧
      ⌊(((['a', 'b'] : JStr).length : ℚ)) *
          min 1 (1 / (fun _ => (10 : ℚ)) (['a', 'b'] : JStr))⌋
        < ((['a', 'b'] : JStr).length : ℤ) ∧
      (['a', 'b'] : JStr).length <
        (Pts.Typography.truncate (fun _ => (10 : ℚ)) ['a', 'b'] 1
            ['.', '.', '.', '.', '.']).1.length := by
  refine ⟨by norm_num, ?_, ?_⟩
  · norm_num
  · norm_num [Pts.Typography.truncate]

/-- C2 (amended): for every measure function `fn` with `fn(text) > 0` and
every width such that `trim = floor(text.length * min(1, width / fn(text)))
< text.length`, the second component of the result is at most `text.length`;
and, provided additionally `tail.length ≤ text.length`, the returned string's
length is at most `text.length`. -/
theorem truncate_trim_bounds (fn : JStr → ℚ) (str : JStr) (width : ℚ)
    (tail : JStr) (hpos : 0 < fn str)
    (htrim : ⌊(str.length : ℚ) * min 1 (width / fn str)⌋ < (str.length : ℤ)) :
    (Pts.Typography.truncate fn str width tail).2 ≤ (str.length : ℤ) ∧
      (tail.length ≤ str.length →
        (Pts.Typography.truncate fn str width tail).1.length ≤ str.length) := by
  unfold Pts.Typography.truncate
  rw [if_pos htrim]
  constructor
  · simp only
    omega
  · intro htail
    simp only [List.length_append, List.length_take]
    omega

/-- Witness for C2's amended theorem at `fn = const 10`, `str = "abcdef"`,
`width = 1`, `tail = ".."`. -/
theorem truncate_trim_bounds_witness :
    (0 : ℚ) < 10 ∧
      ⌊(((['a', 'b', 'c', 'd', 'e', 'f'] : JStr).length : ℚ)) *
          min 1 ((1 : ℚ) / 10)⌋
        < ((['a', 'b', 'c', 'd', 'e', 'f'] : JStr).length : ℤ) ∧
      (Pts.Typography.truncate (fun _ => (10 : ℚ))
            ['a', 'b', 'c', 'd', 'e', 'f'] 1 ['.', '.']).2
          ≤ ((['a', 'b', 'c', 'd', 'e', 'f'] : JStr).length : ℤ) ∧
        (Pts.Typography.truncate (fun _ => (10 : ℚ))
              ['a', 'b', 'c', 'd', 'e', 'f'] 1 ['.', '.']).1.length
          ≤ (['a', 'b', 'c', 'd', 'e', 'f'] : JStr).length := by
  have h := truncate_trim_bounds (fun _ => (10 : ℚ))
    ['a', 'b', 'c', 'd', 'e', 'f'] 1 ['.', '.'] (by norm_num) (by norm_num)
  exact ⟨by norm_num, by norm_num, h.1, h.2 (by norm_num)⟩

/-- C3: with the default samples `["M","n","."]` and default distribution
`[0.06, 0.8, 0.14]`, the estimator returned by `Typography.textWidthEstimator`
maps every string `S` to exactly
`S.length * (0.06 * M("M") + 0.8 * M("n") + 0.14 * M("."))`. -/
theorem textWidthEstimator_default (M : JStr → ℚ) (S : JStr) :
    Pts.Typography.textWidthEstimator M [['M'], ['n'], ['.']]
        [6 / 100, 8 / 10, 14 / 100] S
      = (S.length : ℚ) *
          (6 / 100 * M ['M'] + 8 / 10 * M ['n'] + 14 / 100 * M ['.']) := by
  unfold Pts.Typography.textWidthEstimator Pts.Pt.dot
  simp only [List.map_cons, List.map_nil, List.zipWith_cons_cons,
    List.zipWith_nil_left, List.sum_cons, List.sum_nil]
  ring

/-- C9: the estimator returned by `Typography.textWidthEstimator` is additive
over string concatenation and sends the empty string to 0, for every measure
function, sample list and distribution. -/
theorem textWidthEstimator_additive (M : JStr → ℚ) (samples : List JStr)
    (distribution : List ℚ) (s1 s2 : JStr) :
    Pts.Typography.textWidthEstimator M samples distribution (s1 ++ s2)
        = Pts.Typography.textWidthEstimator M samples distribution s1
          + Pts.Typography.textWidthEstimator M samples distribution s2 ∧
      Pts.Typography.textWidthEstimator M samples distribution [] = 0 := by
  unfold Pts.Typography.textWidthEstimator
  constructor
  · simp only [List.length_append]
    push_cast
    ring
  · simp

open Pts Pts.SVGForm in
/-- C4: every instance draw call of SVGForm (point, circle, arc, square,
line, polygon, rect, text) increments the context's groupCount by exactly
one — even when the call creates no DOM node or delegates to a poly
element — and afterwards `currentID = groupID ++ "-" ++ groupCount`. -/
theorem draw_calls_advance_id (f : FormState) (pt c sz sq tp : ℚ × ℚ)
    (radius halfsize : ℚ) (shape : String) (apt : ℝ × ℝ)
    (ar as ae : ℝ) (cc : Bool) (lpts ppts rpts : List (ℚ × ℚ))
    (txt : String) :
    advancesID f (pointI f pt radius shape).1 ∧
      advancesID f (circleI f c sz).1 ∧
      advancesID f (arcI f apt ar as ae cc).1 ∧
      advancesID f (squareI f sq halfsize).1 ∧
      advancesID f (lineI f lpts).1 ∧
      advancesID f (polygonI f ppts).1 ∧
      advancesID f (rectI f rpts).1 ∧
      advancesID f (textI f tp txt).1 :=
  ⟨⟨rfl, rfl⟩, ⟨rfl, rfl⟩, ⟨rfl, rfl⟩, ⟨rfl, rfl⟩, ⟨rfl, rfl⟩, ⟨rfl, rfl⟩,
    ⟨rfl, rfl⟩, ⟨rfl, rfl⟩⟩

open Pts Pts.SVGForm in
/-- C5 (code slip): `reset()` restores the documented default style and the
size-14 sans-serif font, except that the source's literal for
`stroke-linecap` is the misspelling `"sqaure"`, not `"square"` as the
claim states. -/
theorem reset_installs_defaults (f : FormState) :
    (reset f).ctx.style
        = [("filled", SVal.b true), ("stroked", SVal.b true),
           ("fill", SVal.s "#f03"), ("stroke", SVal.s "#fff"),
           ("stroke-width", SVal.n 1), ("stroke-linejoin", SVal.s "bevel"),
           ("stroke-linecap", SVal.s "sqaure")] ∧
      (reset f).font.size = 14 ∧ (reset f).font.face = "sans-serif" ∧
      styleLookup (reset f).ctx.style "stroke-linecap"
          = some (SVal.s "sqaure") ∧
      styleLookup (reset f).ctx.style "stroke-linecap"
          ≠ some (SVal.s "square") := by
  refine ⟨rfl, rfl, rfl, rfl, ?_⟩
  have h : (reset f).ctx.style = Pts.defaultStyle := rfl
  rw [h]
  decide

open Pts Pts.SVGForm in
/-- A style read misses exactly when the key is outside the object's key
list. -/
theorem styleLookup_eq_none (st : Style) (k : String) :
    styleLookup st k = none ↔ k ∉ st.map Prod.fst := by
  induction st with
  | nil => simp [styleLookup]
  | cons a rest ih =>
    obtain ⟨ak, av⟩ := a
    by_cases h : k = ak
    · simp [styleLookup, h]
    · simp [styleLookup, h, ih]

open Pts Pts.SVGForm in
/-- Reading after a style write: the written key now maps to the new value
(when it was present), other keys are untouched. -/
theorem styleLookup_styleSet (st : Style) (k : String) (v : SVal)
    (q : String) :
    styleLookup (styleSet st k v) q =
      if q = k then (styleLookup st k).map (fun _ => v)
      else styleLookup st q := by
  induction st with
  | nil => by_cases h : q = k <;> simp [styleSet, styleLookup, h]
  | cons a rest ih =>
    obtain ⟨ak, av⟩ := a
    by_cases hk : k = ak
    · subst hk
      by_cases hq : q = k <;> simp [styleSet, styleLookup, hq]
    · have hak : ¬ ak = k := fun h => hk h.symm
      by_cases hq : q = ak
      · have hqk : ¬ q = k := fun h => hk (h ▸ hq)
        simp [styleSet, styleLookup, hk, hq, hqk, hak]
      · simp [styleSet, styleLookup, hk, hq, ih]

open Pts Pts.SVGForm in
/-- C6: on a style object with the fixed key set, `styleTo(k, v)` raises
for every key outside {filled, stroked, fill, stroke, stroke-width,
stroke-linejoin, stroke-linecap} and updates the entry to `v` for every
key inside it. -/
theorem styleTo_closed_keys (st : Style) (k : String) (v : SVal)
    (hk : st.map Prod.fst = fixedStyleKeys) :
    (k ∉ fixedStyleKeys →
        styleTo st k v
          = Except.error (k ++ " style property doesn't exist")) ∧
      (k ∈ fixedStyleKeys →
        styleTo st k v = Except.ok (styleSet st k v) ∧
          styleLookup (styleSet st k v) k = some v) := by
  constructor
  · intro hout
    have hnone : styleLookup st k = none := by
      rw [styleLookup_eq_none, hk]; exact hout
    simp [styleTo, hnone]
  · intro hin
    have hne : styleLookup st k ≠ none := by
      rw [Ne, styleLookup_eq_none, hk]; simpa using hin
    obtain ⟨w, hw⟩ := Option.ne_none_iff_exists'.mp hne
    refine ⟨by simp [styleTo, hw], ?_⟩
    rw [styleLookup_styleSet]
    simp [hw]

open Pts Pts.SVGForm in
/-- Witness for C6 on the default style object, with the unknown key
`"opacity"` and the known key `"fill"`. -/
theorem styleTo_closed_keys_witness :
    styleTo defaultStyle "opacity" (SVal.n 1)
        = Except.error ("opacity" ++ " style property doesn't exist") ∧
      styleTo defaultStyle "fill" (SVal.s "#00f")
          = Except.ok (styleSet defaultStyle "fill" (SVal.s "#00f")) ∧
        styleLookup (styleSet defaultStyle "fill" (SVal.s "#00f")) "fill"
          = some (SVal.s "#00f") :=
  ⟨(styleTo_closed_keys defaultStyle "opacity" (SVal.n 1) (by decide)).1
      (by decide),
    (styleTo_closed_keys defaultStyle "fill" (SVal.s "#00f") (by decide)).2
      (by decide)⟩

open Pts Pts.SVGForm in
/-- C7: for every arc call the path's large-arc-flag is
`(boundAngle(endAngle) - boundAngle(startAngle) > π) XOR cc` and its
sweep-flag is `"0"` exactly when `cc`; and the call
`arc(ctx, [0,0], 10, 0, π, false)` yields the path
`M 10 0 A 10 10 0 0 1 -10 0` (start (10,0), radii 10, large-arc 0,
sweep 1, end (-10,0)). -/
theorem arc_flags_and_scenario (ctx : DrawContext) (pt : ℝ × ℝ)
    (radius startAngle endAngle : ℝ) (cc : Bool) (domID : ℕ) :
    ((arcS ctx pt radius startAngle endAngle cc domID).1.largeArc ↔
        Xor' (Real.pi < boundAngle endAngle - boundAngle startAngle)
          (cc = true)) ∧
      ((arcS ctx pt radius startAngle endAngle cc domID).1.sweep = "0"
          ↔ cc = true) ∧
      (arcS ctx (0, 0) 10 0 Real.pi false domID).1.startPt = (10, 0) ∧
      (arcS ctx (0, 0) 10 0 Real.pi false domID).1.radius = 10 ∧
      ¬ (arcS ctx (0, 0) 10 0 Real.pi false domID).1.largeArc ∧
      (arcS ctx (0, 0) 10 0 Real.pi false domID).1.sweep = "1" ∧
      (arcS ctx (0, 0) 10 0 Real.pi false domID).1.endPt = (-10, 0) := by
  have hb0 : boundAngle 0 = 0 := by
    unfold boundAngle
    simp
  have hbpi : boundAngle Real.pi = Real.pi := by
    unfold boundAngle
    have h2 : Real.pi / (2 * Real.pi) = 1 / 2 := by
      rw [div_eq_iff (by positivity)]
      ring
    rw [h2]
    norm_num
  refine ⟨?_, ?_, ?_, rfl, ?_, rfl, ?_⟩
  · cases cc <;> simp [arcS, Xor']
  · cases cc <;> simp [arcS]
  · simp [arcS, toAngle, Real.cos_zero, Real.sin_zero]
  · simp only [arcS]
    rw [hbpi, hb0]
    simp
  · simp [arcS, toAngle, Real.cos_pi, Real.sin_pi]

open Pts Pts.SVGForm in
/-- C8: `SVGForm.line` dispatches on the point count — below 2 points it
silently returns nothing, at exactly 2 it builds a `line` element with
x1,y1,x2,y2, above 2 it delegates to the polyline path and yields a
`polyline` element, never a `line`. -/
theorem line_dispatch (ctx : DrawContext) (pts : List (ℚ × ℚ))
    (p q : ℚ × ℚ) (domID : ℕ) :
    (pts.length < 2 → lineS ctx pts domID = (none, domID)) ∧
      lineS ctx [p, q] domID
          = (some (Elem.lineE (getID ctx domID).1 p.1 p.2 q.1 q.2
              ("pts-svgform pts-line " ++ ctx.currentClass)
              (styleString ctx.style)),
            (getID ctx domID).2) ∧
      (2 < pts.length →
        lineS ctx pts domID = polyS ctx pts false domID ∧
          polyS ctx pts false domID
            = (some (Elem.polyE (getID ctx domID).1 "polyline"
                (polyPoints pts)
                ("pts-svgform pts-polygon " ++ ctx.currentClass)
                (styleString ctx.style)),
              (getID ctx domID).2)) := by
  refine ⟨?_, ?_, ?_⟩
  · intro h
    have hcs : checkSize pts = false := by
      simp [checkSize]
      omega
    simp [lineS, hcs]
  · rfl
  · intro h
    have hcs : checkSize pts = true := by
      simp [checkSize]
      omega
    constructor
    · simp [lineS, hcs, h]
    · simp [polyS, hcs]

open Pts Pts.SVGForm in
/-- Witness for C8: the empty list is skipped, and three collinear points
dispatch to the polyline path rather than a line element. -/
theorem line_dispatch_witness :
    lineS initContext [] 0 = (none, 0) ∧
      lineS initContext [((0 : ℚ), (0 : ℚ)), (1, 1)] 0
          = (some (Elem.lineE (getID initContext 0).1 0 0 1 1
              ("pts-svgform pts-line " ++ initContext.currentClass)
              (styleString initContext.style)),
            (getID initContext 0).2) ∧
      lineS initContext [((0 : ℚ), (0 : ℚ)), (1, 1), (2, 2)] 0
          = polyS initContext [((0 : ℚ), (0 : ℚ)), (1, 1), (2, 2)] false 0 :=
  ⟨(line_dispatch initContext [] ((0 : ℚ), (0 : ℚ)) (1, 1) 0).1 (by decide),
    (line_dispatch initContext [] ((0 : ℚ), (0 : ℚ)) (1, 1) 0).2.1,
    ((line_dispatch initContext [((0 : ℚ), (0 : ℚ)), (1, 1), (2, 2)]
        ((0 : ℚ), (0 : ℚ)) (1, 1) 0).2.2 (by decide)).1⟩

/-- Binding a successful `Except` computation applies the continuation. -/
theorem exceptBindOk {ε α β : Type} (x : α) (k : α → Except ε β) :
    (Except.ok x >>= k : Except ε β) = k x := rfl

/-- `pure` into `Except` is `Except.ok`. -/
theorem exceptPureOk {ε α : Type} (x : α) :
    (pure x : Except ε α) = Except.ok x := rfl

open Pts Pts.SVGForm in
/-- C10: `log(txt)` permanently overrides the shared context style — after
it succeeds the context has filled=true, fill="#000", stroked=true,
stroke="#fff" and stroke-width=0.5, it is not restored, and every
subsequent draw call leaves the style untouched (so it keeps using those
values until fill/stroke/reset changes them). -/
theorem log_overrides_style (f : FormState) (txt : String)
    (h1 : styleLookup f.ctx.style "filled" ≠ none)
    (h2 : styleLookup f.ctx.style "fill" ≠ none)
    (h3 : styleLookup f.ctx.style "stroked" ≠ none)
    (h4 : styleLookup f.ctx.style "stroke" ≠ none)
    (h5 : styleLookup f.ctx.style "stroke-width" ≠ none) :
    ∃ g : FormState × Elem, log f txt = Except.ok g ∧
      styleLookup g.1.ctx.style "filled" = some (SVal.b true) ∧
      styleLookup g.1.ctx.style "fill" = some (SVal.s "#000") ∧
      styleLookup g.1.ctx.style "stroked" = some (SVal.b true) ∧
      styleLookup g.1.ctx.style "stroke" = some (SVal.s "#fff") ∧
      styleLookup g.1.ctx.style "stroke-width" = some (SVal.n (1 / 2)) ∧
      (∀ pt r sh, ((pointI g.1 pt r sh).1).ctx.style = g.1.ctx.style) ∧
      (∀ c sz, ((circleI g.1 c sz).1).ctx.style = g.1.ctx.style) ∧
      (∀ apt ar aa ab cc,
        ((arcI g.1 apt ar aa ab cc).1).ctx.style = g.1.ctx.style) ∧
      (∀ pt hs, ((squareI g.1 pt hs).1).ctx.style = g.1.ctx.style) ∧
      (∀ pts, ((lineI g.1 pts).1).ctx.style = g.1.ctx.style) ∧
      (∀ pts, ((polygonI g.1 pts).1).ctx.style = g.1.ctx.style) ∧
      (∀ pts, ((rectI g.1 pts).1).ctx.style = g.1.ctx.style) ∧
      (∀ pt t2, ((textI g.1 pt t2).1).ctx.style = g.1.ctx.style) := by
  obtain ⟨w1, hw1⟩ := Option.ne_none_iff_exists'.mp h1
  obtain ⟨w2, hw2⟩ := Option.ne_none_iff_exists'.mp h2
  obtain ⟨w3, hw3⟩ := Option.ne_none_iff_exists'.mp h3
  obtain ⟨w4, hw4⟩ := Option.ne_none_iff_exists'.mp h4
  obtain ⟨w5, hw5⟩ := Option.ne_none_iff_exists'.mp h5
  have hhalf : ((1 : ℚ) / 2) ≠ 0 := by norm_num
  have e1 : styleTo f.ctx.style "filled" (SVal.b true)
      = Except.ok (styleSet f.ctx.style "filled" (SVal.b true)) := by
    unfold styleTo; rw [hw1]
  have l2 : styleLookup (styleSet f.ctx.style "filled" (SVal.b true)) "fill"
      = some w2 := by
    rw [styleLookup_styleSet]; simp [hw2]
  have e2 : styleTo (styleSet f.ctx.style "filled" (SVal.b true)) "fill"
        (SVal.s "#000")
      = Except.ok (styleSet (styleSet f.ctx.style "filled" (SVal.b true))
          "fill" (SVal.s "#000")) := by
    unfold styleTo; rw [l2]
  set t2 := styleSet (styleSet f.ctx.style "filled" (SVal.b true)) "fill"
    (SVal.s "#000") with ht2
  have l3 : styleLookup t2 "stroked" = some w3 := by
    simp [ht2, styleLookup_styleSet, hw3]
  have e3 : styleTo t2 "stroked" (SVal.b true)
      = Except.ok (styleSet t2 "stroked" (SVal.b true)) := by
    unfold styleTo; rw [l3]
  set t3 := styleSet t2 "stroked" (SVal.b true) with ht3
  have l4 : styleLookup t3 "stroke" = some w4 := by
    simp [ht3, ht2, styleLookup_styleSet, hw4]
  have e4 : styleTo t3 "stroke" (SVal.s "#fff")
      = Except.ok (styleSet t3 "stroke" (SVal.s "#fff")) := by
    unfold styleTo; rw [l4]
  set t4 := styleSet t3 "stroke" (SVal.s "#fff") with ht4
  have l5 : styleLookup t4 "stroke-width" = some w5 := by
    simp [ht4, ht3, ht2, styleLookup_styleSet, hw5]
  have e5 : styleTo t4 "stroke-width" (SVal.n (1 / 2))
      = Except.ok (styleSet t4 "stroke-width" (SVal.n (1 / 2))) := by
    unfold styleTo; rw [l5]
  set t5 := styleSet t4 "stroke-width" (SVal.n (1 / 2)) with ht5
  have hlog : log f txt
      = Except.ok (textI { f with ctx := { f.ctx with style := t5 } }
          (10, 14) txt) := by
    simp only [log, fill, stroke, e1, exceptBindOk, e2, e3, e4, e5,
      exceptPureOk, hhalf, if_true, ne_eq, not_false_iff]
  refine ⟨textI { f with ctx := { f.ctx with style := t5 } } (10, 14) txt,
    hlog, ?_, ?_, ?_, ?_, ?_,
    fun _ _ _ => rfl, fun _ _ => rfl, fun _ _ _ _ _ => rfl, fun _ _ => rfl,
    fun _ => rfl, fun _ => rfl, fun _ => rfl, fun _ _ => rfl⟩
  · show styleLookup t5 "filled" = some (SVal.b true)
    simp [ht5, ht4, ht3, ht2, styleLookup_styleSet, hw1]
  · show styleLookup t5 "fill" = some (SVal.s "#000")
    simp [ht5, ht4, ht3, ht2, styleLookup_styleSet, hw2]
  · show styleLookup t5 "stroked" = some (SVal.b true)
    simp [ht5, ht4, ht3, ht2, styleLookup_styleSet, hw3]
  · show styleLookup t5 "stroke" = some (SVal.s "#fff")
    simp [ht5, ht4, styleLookup_styleSet, hw4, l4]
  · show styleLookup t5 "stroke-width" = some (SVal.n (1 / 2))
    simp [ht5, styleLookup_styleSet, hw5, l5]

open Pts Pts.SVGForm in
/-- Witness for C10 on the constructor's initial context. -/
theorem log_overrides_style_witness :
    ∃ g : FormState × Elem,
      log ⟨initContext, Font.make 11 "sans-serif", 0⟩ "hi" = Except.ok g ∧
        styleLookup g.1.ctx.style "filled" = some (SVal.b true) ∧
        styleLookup g.1.ctx.style "fill" = some (SVal.s "#000") ∧
        styleLookup g.1.ctx.style "stroked" = some (SVal.b true) ∧
        styleLookup g.1.ctx.style "stroke" = some (SVal.s "#fff") ∧
        styleLookup g.1.ctx.style "stroke-width" = some (SVal.n (1 / 2)) ∧
        (∀ pt r sh, ((pointI g.1 pt r sh).1).ctx.style = g.1.ctx.style) ∧
        (∀ c sz, ((circleI g.1 c sz).1).ctx.style = g.1.ctx.style) ∧
        (∀ apt ar aa ab cc,
          ((arcI g.1 apt ar aa ab cc).1).ctx.style = g.1.ctx.style) ∧
        (∀ pt hs, ((squareI g.1 pt hs).1).ctx.style = g.1.ctx.style) ∧
        (∀ pts, ((lineI g.1 pts).1).ctx.style = g.1.ctx.style) ∧
        (∀ pts, ((polygonI g.1 pts).1).ctx.style = g.1.ctx.style) ∧
        (∀ pts, ((rectI g.1 pts).1).ctx.style = g.1.ctx.style) ∧
        (∀ pt t2, ((textI g.1 pt t2).1).ctx.style = g.1.ctx.style) :=
  log_overrides_style ⟨initContext, Font.make 11 "sans-serif", 0⟩ "hi"
    (by decide) (by decide) (by decide) (by decide) (by decide)
